import Mathlib

/-!
Verification development for the GestureVault gesture-authentication core.

The definitions below are a shallow embedding of the JavaScript sources:

* `Backend/src/models/Gesture.js` — the gesture template model with
  `comparePositions`, `compareTiming`, `calculateConfidence` and
  `validateGesture`;
* `Backend/src/models/User.js` — the per-identity lockout state
  (`isLocked`, `incLoginAttempts`, `resetLoginAttempts`);
* `Backend/src/routes/auth.js` — the `POST /api/auth/login` pipeline;
* `Backend/src/routes/gestures.js` — `calculateComplexity`;
* `Frontend/js/modules/security.js` — the anti-spoofing analyzer
  (`checkDepthConsistency`, `analyzeMotionPatterns`,
  `analyzeTimingPatterns`, `performAntiSpoofingCheck`).

Numbers are embedded as exact rationals (an idealization of JavaScript
doubles).  `Math.sqrt` appears in two different roles: where the source
only compares a square root against a tolerance, the embedding compares
squares (`distGtTol`), and the lemma `distGtTol_iff_sqrt` proves this
equivalent to the comparison with the real square root; where the source
adds square roots into a running sum (`calculateComplexity`,
`analyzeMotionPatterns`), the square-root function is a parameter
`msqrt`, constrained only as the claims require (nonnegativity), so all
results hold in particular for the true square root.  JavaScript
division by zero produces `Infinity`/`NaN`; every place where the source
can divide by zero is embedded by an explicit case split that reproduces
the outcome of the subsequent `NaN`/`Infinity` comparison, documented at
the definition.  Exceptions are embedded with `Except`.
-/

namespace GestureVault

/-- A 3-D position sample point `{x, y, z}`. -/
structure Pos where
  x : ℚ
  y : ℚ
  z : ℚ
deriving DecidableEq, Repr

/-- A gesture sample as the backend sees it: parallel `positions` and
`timing` arrays (`gestureData` in the routes). -/
structure GestureData where
  positions : List Pos
  timing : List ℚ
deriving DecidableEq, Repr

/-- The squared Euclidean distance
`(a.x-b.x)^2 + (a.y-b.y)^2 + (a.z-b.z)^2`; the source computes
`Math.sqrt` of exactly this sum (Gesture.js lines 177-181). -/
def distSq (a b : Pos) : ℚ :=
  (a.x - b.x) ^ 2 + (a.y - b.y) ^ 2 + (a.z - b.z) ^ 2

/-- Gesture.js line 183: `distance > tolerance` where
`distance = Math.sqrt(distSq a b)`.  For `0 ≤ tol` this is equivalent to
`tol^2 < distSq a b`; for `tol < 0` it always holds, because a square
root is nonnegative.  The lemma `distGtTol_iff_sqrt` proves this
faithful to the real-square-root comparison. -/
def distGtTol (tol : ℚ) (a b : Pos) : Bool :=
  if tol < 0 then true else decide (tol ^ 2 < distSq a b)

/-- Gesture.js lines 170-189 (`comparePositions`): walk
`i < min(stored.length, input.length)` and fail on the first index whose
distance exceeds `this.tolerance.position`. -/
def comparePositions (tolPos : ℚ) (stored input : List Pos) : Bool :=
  (List.range (min stored.length input.length)).all fun i =>
    ! distGtTol tolPos (stored.getD i ⟨0, 0, 0⟩) (input.getD i ⟨0, 0, 0⟩)

/-- Gesture.js lines 195-198 for one index:
`relativeDiff = |stored[i] - input[i]| / stored[i]` and the test
`relativeDiff > tolerance`.  When `stored[i] = 0` JavaScript divides by
zero: if `input[i] = 0` too, `relativeDiff` is `NaN` and `NaN > tol` is
false (the index passes); otherwise `relativeDiff` is `Infinity`, which
exceeds every finite tolerance (the index fails).  The case split
reproduces exactly that. -/
def timingFailsAt (tolT s l : ℚ) : Bool :=
  if s = 0 then decide (l ≠ 0) else decide (tolT < |s - l| / s)

/-- Gesture.js lines 191-204 (`compareTiming`): walk
`i < min(stored.length, input.length)` and fail on the first index whose
relative timing difference exceeds `this.tolerance.timing`. -/
def compareTiming (tolT : ℚ) (stored input : List ℚ) : Bool :=
  (List.range (min stored.length input.length)).all fun i =>
    ! timingFailsAt tolT (stored.getD i 0) (input.getD i 0)

/-- `usageStats` of the gesture schema (Gesture.js lines 77-98). -/
structure UsageStats where
  totalAttempts : ℕ
  successfulAttempts : ℕ
  failedAttempts : ℕ
  averageConfidence : ℚ
  lastUsed : Option ℚ
deriving DecidableEq, Repr

/-- `tolerance` of the gesture schema (Gesture.js lines 62-75). -/
structure Tolerance where
  position : ℚ
  timing : ℚ
deriving DecidableEq, Repr

/-- A gesture template document.  `stored` is the decrypted payload of
`gestureData`: `some` when `decryptGestureData` succeeds, `none` when
decryption/parsing fails. -/
structure Gesture where
  stored : Option GestureData
  tolerance : Tolerance
  usageStats : UsageStats
deriving DecidableEq, Repr

/-- Gesture.js lines 133-142 (`decryptGestureData`): returns the parsed
stored sample or throws `Failed to decrypt gesture data`. -/
def decryptGestureData (g : Gesture) : Except String GestureData :=
  match g.stored with
  | some d => Except.ok d
  | none => Except.error "Failed to decrypt gesture data"

/-- Gesture.js lines 206-215 (`calculateConfidence`).  The body calls
`this.calculatePositionConfidence` and `this.calculateTimingConfidence`,
and neither method is defined anywhere in the repository, so in
JavaScript the very first of those calls raises
`TypeError: this.calculatePositionConfidence is not a function` before
any arithmetic happens.  The embedding records that unconditional
failure. -/
def calculateConfidence (_stored _input : GestureData) : Except String ℚ :=
  Except.error "this.calculatePositionConfidence is not a function"

/-- The `try` body of Gesture.js lines 144-164: decrypt, compare
positions and timing, compute `success` (line 151), compute `confidence`
(line 152, which throws, see `calculateConfidence`), and only then
update `usageStats` (lines 154-161) and return `{success, confidence}`
together with the mutated template. -/
def validateGestureBody (g : Gesture) (inputGesture : GestureData) (now : ℚ) :
    Except String (Bool × ℚ × Gesture) := do
  let storedGesture ← decryptGestureData g
  let positionMatch :=
    comparePositions g.tolerance.position storedGesture.positions inputGesture.positions
  let timingMatch :=
    compareTiming g.tolerance.timing storedGesture.timing inputGesture.timing
  let success := positionMatch && timingMatch
  let confidence ← calculateConfidence storedGesture inputGesture
  let stats := g.usageStats
  let stats := { stats with totalAttempts := stats.totalAttempts + 1 }
  let stats :=
    if success then { stats with successfulAttempts := stats.successfulAttempts + 1 }
    else { stats with failedAttempts := stats.failedAttempts + 1 }
  let stats := { stats with lastUsed := some now }
  pure (success, confidence, { g with usageStats := stats })

/-- Gesture.js lines 144-168 (`validateGesture`): the whole body runs in
a `try`; any inner error is caught and re-thrown as
`Gesture validation failed`. -/
def validateGesture (g : Gesture) (inputGesture : GestureData) (now : ℚ) :
    Except String (Bool × ℚ × Gesture) :=
  match validateGestureBody g inputGesture now with
  | Except.ok r => Except.ok r
  | Except.error _ => Except.error "Gesture validation failed"

/-- Gesture.js line 151: `success = positionMatch && timingMatch`, the
value the method would return as `success`. -/
def successFlag (g : Gesture) (storedGesture inputGesture : GestureData) : Bool :=
  comparePositions g.tolerance.position storedGesture.positions inputGesture.positions &&
    compareTiming g.tolerance.timing storedGesture.timing inputGesture.timing

/-! ### Per-identity lockout state (User.js) -/

/-- `2 * 60 * 60 * 1000` milliseconds, the lock duration of User.js
line 295. -/
def lockTime : ℚ := 2 * 60 * 60 * 1000

/-- The lockout-relevant slice of a user document: `loginAttempts`
(schema default 0), `lockUntil` and `lastLogin` (both nullable
dates). -/
structure UserState where
  loginAttempts : ℕ
  lockUntil : Option ℚ
  lastLogin : Option ℚ
deriving DecidableEq, Repr

/-- User.js lines 253-255, the `isLocked` virtual:
`!!(this.lockUntil && this.lockUntil > Date.now())`. -/
def isLocked (u : UserState) (now : ℚ) : Bool :=
  match u.lockUntil with
  | some t => decide (now < t)
  | none => false

/-- The unconditional part of `incLoginAttempts` (User.js lines
291-298): `$inc loginAttempts by 1`, and additionally
`$set lockUntil = now + 2h` when `this.loginAttempts + 1 >= 5` and the
account is not currently locked. -/
def incLoginAttemptsCore (u : UserState) (now : ℚ) : UserState :=
  if 5 ≤ u.loginAttempts + 1 && ! isLocked u now then
    { u with loginAttempts := u.loginAttempts + 1, lockUntil := some (now + lockTime) }
  else
    { u with loginAttempts := u.loginAttempts + 1 }

/-- User.js lines 282-299 (`incLoginAttempts`): if a previous lock has
expired (`this.lockUntil && this.lockUntil < Date.now()`), restart with
`loginAttempts = 1` and `$unset lockUntil`; otherwise increment and
possibly lock (`incLoginAttemptsCore`). -/
def incLoginAttempts (u : UserState) (now : ℚ) : UserState :=
  match u.lockUntil with
  | some t =>
    if t < now then { u with lockUntil := none, loginAttempts := 1 }
    else incLoginAttemptsCore u now
  | none => incLoginAttemptsCore u now

/-- User.js lines 302-307 (`resetLoginAttempts`):
`$unset loginAttempts, lockUntil` (the schema default of
`loginAttempts` is 0) and `$set lastLogin = new Date()`. -/
def resetLoginAttempts (_u : UserState) (now : ℚ) : UserState :=
  { loginAttempts := 0, lockUntil := none, lastLogin := some now }

/-! ### The login route (auth.js lines 110-210) -/

/-- Outcome of `POST /api/auth/login` after the user has been found.
`gestureError` is the error thrown out of `validateGesture` and
surfaced by `asyncHandler`; the route has no anti-spoofing branch of
any kind. -/
inductive LoginResult where
  | locked
  | gestureError (msg : String)
  | invalidGesture (attemptsRemaining : ℤ)
  | loginSuccess (confidence : ℚ)
deriving DecidableEq, Repr

/-- auth.js lines 142-210, from the lock gate on: reject when
`user.isLocked` (line 143); otherwise call
`user.gesturePassword.validateGesture(gestureData)` (line 151); on a
thrown error the request fails with that error; on `success: false`
increment the lockout counter and report
`attemptsRemaining = max(0, 5 - user.loginAttempts - 1)` computed from
the in-memory (pre-increment) counter (line 162); on success reset the
lockout state.  Token generation, logging and the gamification stats
are outside the modeled state. -/
def loginRoute (u : UserState) (g : Gesture) (gestureData : GestureData) (now : ℚ) :
    LoginResult × UserState :=
  if isLocked u now then (LoginResult.locked, u)
  else
    match validateGesture g gestureData now with
    | Except.error msg => (LoginResult.gestureError msg, u)
    | Except.ok (success, confidence, _g2) =>
      if success then (LoginResult.loginSuccess confidence, resetLoginAttempts u now)
      else
        (LoginResult.invalidGesture (max 0 (5 - (u.loginAttempts : ℤ) - 1)),
          incLoginAttempts u now)

/-- The user state after five failed-validation transitions (the
`incLoginAttempts` calls the login route performs on `success: false`)
starting from a fresh account, at times `t1 … t5`. -/
def fiveFailures (t1 t2 t3 t4 t5 : ℚ) : UserState :=
  incLoginAttempts
    (incLoginAttempts
      (incLoginAttempts
        (incLoginAttempts
          (incLoginAttempts ⟨0, none, none⟩ t1) t2) t3) t4) t5

/-! ### Anti-spoofing analyzer (security.js) -/

/-- The record the pattern analyzers return: `{suspicious}` alone when
clean, `{suspicious, severity, reason}` when flagged. -/
structure SpoofVerdict where
  suspicious : Bool
  severity : Option String
  reason : Option String
deriving DecidableEq, Repr

/-- security.js lines 400-403 (also 352-355, 366-380): the
frame-to-frame deltas of a series, with index 0 mapped to 0:
`data.map((v, i) => i == 0 ? 0 : v - data[i-1])`. -/
def deltasWith (f : ℚ → ℚ → ℚ) : List ℚ → List ℚ
  | [] => []
  | t :: ts => 0 :: List.zipWith f (t :: ts) ts

/-- `xs.reduce((sum, v) => sum + v, 0) / xs.length`, the mean as the
analyzers compute it.  On an empty list JavaScript yields `NaN`
(division by zero) where this yields 0; every use below either
special-cases the empty list or reproduces the `NaN` comparison
outcome, documented at the use site. -/
def meanQ (xs : List ℚ) : ℚ := xs.sum / xs.length

/-- Population variance as security.js lines 405-408 compute it:
`xs.reduce((s, v) => s + (v - mean)^2, 0) / xs.length`. -/
def varianceQ (xs : List ℚ) : ℚ :=
  ((xs.map fun x => (x - meanQ xs) ^ 2).sum) / xs.length

/-- security.js lines 398-420 (`analyzeTimingPatterns`): intervals with
a leading 0, their mean and variance; `variance < 0.01` flags
`too_perfect_timing` with severity `high`.  With an empty `timingData`
JavaScript gets `NaN < 0.01 = false` (not suspicious); the explicit
empty case reproduces that. -/
def analyzeTimingPatterns (timingData : List ℚ) : SpoofVerdict :=
  let intervals := deltasWith (fun prev cur => cur - prev) timingData
  match intervals with
  | [] => { suspicious := false, severity := none, reason := none }
  | _ :: _ =>
    if varianceQ intervals < 1 / 100 then
      { suspicious := true, severity := some "high", reason := some "too_perfect_timing" }
    else
      { suspicious := false, severity := none, reason := none }

/-- security.js lines 364-393 (`analyzeMotionPatterns`): per-frame
velocities (index 0 mapped to 0, then `Math.sqrt` of the squared
coordinate deltas), their absolute frame-to-frame changes, and the test
`max > 100`.  `msqrt` stands for `Math.sqrt`.  JavaScript computes the
maximum as `Math.max(...accelerationChanges)`, which is `-Infinity` on
the empty list and hence fails the `> 100` test; the fold with initial
value 0 agrees, because a nonempty `accelerationChanges` starts with 0
and all its entries are nonnegative. -/
def analyzeMotionPatterns (msqrt : ℚ → ℚ) (motionData : List Pos) : SpoofVerdict :=
  let velocities :=
    match motionData with
    | [] => []
    | p :: ps => 0 :: List.zipWith (fun prev cur => msqrt (distSq prev cur)) (p :: ps) ps
  let accelerationChanges := deltasWith (fun prev cur => |cur - prev|) velocities
  let maxAcceleration := accelerationChanges.foldl max 0
  if maxAcceleration > 100 then
    { suspicious := true, severity := some "medium", reason := some "unnatural_acceleration" }
  else
    { suspicious := false, severity := none, reason := none }

/-- security.js lines 349-359 (`checkDepthConsistency`): average
frame-to-frame depth delta must exceed 0.1.  With an empty `depthData`
JavaScript gets `NaN > 0.1 = false`; the rational division by zero
yields `0 > 0.1 = false`, the same verdict. -/
def checkDepthConsistency (depthData : List ℚ) : Bool :=
  let variations := deltasWith (fun prev cur => |cur - prev|) depthData
  decide (variations.sum / variations.length > 1 / 10)

/-- The argument of `performAntiSpoofingCheck`: `depthData` is optional
by design (line 308 guards on its presence); `motionData` and
`timingData` are accessed unconditionally, and an absent field makes
the corresponding analyzer throw a `TypeError`. -/
structure SpoofGestureData where
  depthData : Option (List ℚ)
  motionData : Option (List Pos)
  timingData : Option (List ℚ)
deriving DecidableEq, Repr

/-- The `try` body of security.js lines 306-339: depth check (only when
`depthData` is present), then motion check, then timing check, each
returning `false` on a suspicious verdict; `true` when all pass.
Accessing a missing `motionData`/`timingData` raises a `TypeError`,
embedded as `Except.error`. -/
def antiSpoofingBody (msqrt : ℚ → ℚ) (g : SpoofGestureData) : Except String Bool :=
  let depthOk :=
    match g.depthData with
    | some depthData => checkDepthConsistency depthData
    | none => true
  if depthOk = false then Except.ok false
  else
    match g.motionData with
    | none => Except.error "TypeError: motionData is undefined"
    | some motionData =>
      if (analyzeMotionPatterns msqrt motionData).suspicious then Except.ok false
      else
        match g.timingData with
        | none => Except.error "TypeError: timingData is undefined"
        | some timingData =>
          if (analyzeTimingPatterns timingData).suspicious then Except.ok false
          else Except.ok true

/-- security.js lines 303-344 (`performAntiSpoofingCheck`): return
`true` immediately when anti-spoofing is disabled; otherwise run the
body, and on any thrown error `catch (error) { return true }` — the
check fails open. -/
def performAntiSpoofingCheck (enabled : Bool) (msqrt : ℚ → ℚ) (g : SpoofGestureData) :
    Bool :=
  if enabled = false then true
  else
    match antiSpoofingBody msqrt g with
    | Except.ok b => b
    | Except.error _ => true

/-! ### Complexity scorer (gestures.js lines 320-348) -/

/-- The loop of gestures.js lines 329-339: the sum of the distances
between consecutive positions, `msqrt` standing for `Math.sqrt`. -/
def totalDistance (msqrt : ℚ → ℚ) : List Pos → ℚ
  | [] => 0
  | [_] => 0
  | a :: b :: rest => msqrt (distSq a b) + totalDistance msqrt (b :: rest)

/-- gestures.js lines 320-348 (`calculateComplexity`):
`complexity = 1`, `+= positions.length * 0.5`, `+= totalDistance * 0.1`,
`+= timeVariance * 0.01`, then
`Math.min(10, Math.max(1, Math.round(complexity)))`.  `Math.round`
rounds halves toward positive infinity, exactly as Mathlib `round`
does. -/
def calculateComplexity (msqrt : ℚ → ℚ) (positions : List Pos) (timing : List ℚ) : ℤ :=
  let c1 : ℚ := 1 + (positions.length : ℚ) * (1 / 2)
  let c2 : ℚ := c1 + totalDistance msqrt positions * (1 / 10)
  let c3 : ℚ := c2 + varianceQ timing * (1 / 100)
  min 10 (max 1 (round c3))

/-! ### Concrete inputs used by the claim instances -/

/-- A well-formed 3-point sample. -/
def sampleData : GestureData :=
  { positions := [⟨0, 0, 0⟩, ⟨1/10, 0, 0⟩, ⟨2/10, 0, 0⟩], timing := [0, 100, 200] }

/-- Default usage statistics of a fresh template. -/
def freshStats : UsageStats :=
  { totalAttempts := 0, successfulAttempts := 0, failedAttempts := 0
    averageConfidence := 0, lastUsed := none }

/-- A template holding `sampleData` with the schema-default tolerances
(position 0.15, timing 0.2). -/
def sampleGesture : Gesture :=
  { stored := some sampleData, tolerance := { position := 15/100, timing := 2/10 }
    usageStats := freshStats }

/-- The stored sample of the C2 scenario: first point at the origin. -/
def c2Stored : GestureData :=
  { positions := [⟨0, 0, 0⟩, ⟨0, 0, 0⟩, ⟨0, 0, 0⟩], timing := [0, 100, 200] }

/-- The live sample of the C2 scenario: first point at `(0, 0.2, 0)`,
distance 0.2 from the stored point, beyond tolerance 0.15. -/
def c2Live : GestureData :=
  { positions := [⟨0, 2/10, 0⟩, ⟨0, 0, 0⟩, ⟨0, 0, 0⟩], timing := [0, 100, 200] }

/-- A template holding `c2Stored` with `tolerance.position = 0.15`. -/
def c2Gesture : Gesture :=
  { stored := some c2Stored, tolerance := { position := 15/100, timing := 2/10 }
    usageStats := freshStats }

/-- A fresh, unlocked user. -/
def freshUser : UserState := { loginAttempts := 0, lockUntil := none, lastLogin := none }

/-- The inter-frame intervals as the specification words them (the
time gaps between consecutive frames): the differences of consecutive
timestamps, with no extra entry.  This definition follows the words of
the spec, for comparison with the computation in the code
(`deltasWith`), whose `map` keeps an entry for index 0 and maps it to
the value 0 — so the code version of the interval list of a uniformly
spaced series `[0, d, 2d, …]` is `[0, d, d, …]`, not `[d, d, …]`, and
its variance is far from 0. -/
def specIntervals (timingData : List ℚ) : List ℚ :=
  List.zipWith (fun prev cur => cur - prev) timingData timingData.tail

/-! ## Helper lemmas -/

/-- Faithfulness of `distGtTol` to the source comparison
`Math.sqrt(distSq a b) > tolerance`. -/
theorem distGtTol_iff_sqrt (tol : ℚ) (a b : Pos) :
    distGtTol tol a b = true ↔ (tol : ℝ) < Real.sqrt ((distSq a b : ℚ) : ℝ) := by
  unfold distGtTol
  by_cases h : tol < 0
  · rw [if_pos h]
    constructor
    · intro _
      exact lt_of_lt_of_le (by exact_mod_cast h) (Real.sqrt_nonneg _)
    · intro _
      rfl
  · rw [if_neg h, decide_eq_true_eq,
      Real.lt_sqrt (show (0 : ℝ) ≤ (tol : ℝ) by exact_mod_cast not_lt.mp h)]
    constructor
    · intro hq
      exact_mod_cast hq
    · intro hr
      exact_mod_cast hr

theorem comparePositions_eq_true_iff (tolPos : ℚ) (stored input : List Pos) :
    comparePositions tolPos stored input = true ↔
      ∀ i < min stored.length input.length,
        distGtTol tolPos (stored.getD i ⟨0, 0, 0⟩) (input.getD i ⟨0, 0, 0⟩) = false := by
  simp [comparePositions, List.all_eq_true, List.mem_range, Bool.not_eq_true']

theorem comparePositions_eq_false_iff (tolPos : ℚ) (stored input : List Pos) :
    comparePositions tolPos stored input = false ↔
      ∃ i < min stored.length input.length,
        distGtTol tolPos (stored.getD i ⟨0, 0, 0⟩) (input.getD i ⟨0, 0, 0⟩) = true := by
  rw [Bool.eq_false_iff, Ne, comparePositions_eq_true_iff]
  push_neg
  simp [Bool.not_eq_false]

theorem compareTiming_eq_true_iff (tolT : ℚ) (stored input : List ℚ) :
    compareTiming tolT stored input = true ↔
      ∀ i < min stored.length input.length,
        timingFailsAt tolT (stored.getD i 0) (input.getD i 0) = false := by
  simp [compareTiming, List.all_eq_true, List.mem_range, Bool.not_eq_true']

theorem compareTiming_eq_false_iff (tolT : ℚ) (stored input : List ℚ) :
    compareTiming tolT stored input = false ↔
      ∃ i < min stored.length input.length,
        timingFailsAt tolT (stored.getD i 0) (input.getD i 0) = true := by
  rw [Bool.eq_false_iff, Ne, compareTiming_eq_true_iff]
  push_neg
  simp [Bool.not_eq_false]

/-- `validateGesture` throws on every input: either decryption fails, or
the `calculateConfidence` call at line 152 raises a `TypeError`, and the
`catch` of lines 165-167 turns both into `Gesture validation failed`.
The `usageStats` update at lines 154-161 is therefore never reached. -/
theorem validateGesture_eq_error (g : Gesture) (input : GestureData) (now : ℚ) :
    validateGesture g input now = Except.error "Gesture validation failed" := by
  obtain ⟨stored, tol, stats⟩ := g
  cases stored <;> rfl

/-! ## Claim theorems -/

/-- C1: the claim says a call to `validateGesture` returns
`{success, confidence}` and updates `usageStats` exactly once per call.
The code cannot do either: `calculateConfidence` (line 152, evaluated
before the stats update of lines 154-161) calls
`this.calculatePositionConfidence`, which is defined nowhere in the
repository, so every call throws `Gesture validation failed`, returns
no result and leaves `usageStats` untouched. -/
theorem C1_validateGesture_always_throws :
    validateGesture sampleGesture sampleData 0 =
      Except.error "Gesture validation failed" ∧
    ∀ (g : Gesture) (input : GestureData) (now : ℚ),
      validateGesture g input now = Except.error "Gesture validation failed" :=
  ⟨validateGesture_eq_error _ _ _, validateGesture_eq_error⟩

/-- C2 counterexample: in the spec scenario (tolerance.position = 0.15,
stored first point (0,0,0), live first point (0,0.2,0)) the position
comparison fails as claimed, but `validateGesture` does not return
`success = false`: it throws `Gesture validation failed`, so no
`{success, confidence}` result exists. -/
theorem C2_counterexample :
    comparePositions (15/100) c2Stored.positions c2Live.positions = false ∧
    validateGesture c2Gesture c2Live 0 = Except.error "Gesture validation failed" :=
  ⟨by with_unfolding_all decide, validateGesture_eq_error _ _ _⟩

/-- C2 amended: the position match fails if and only if some index
`i < min(len stored, len live)` has `distance3D(stored[i], live[i])`
strictly greater than `tolerance.position` (first violation decisive,
no partial credit); a failed position match forces the computed
`success` flag of line 151 to `false`; and in the spec scenario the
position match indeed fails — but `validateGesture` raises
`Gesture validation failed` (the C1 defect) instead of returning that
flag. -/
theorem C2_position_match_characterization :
    (∀ (tolPos : ℚ) (stored input : List Pos),
      comparePositions tolPos stored input = false ↔
        ∃ i < min stored.length input.length,
          (tolPos : ℝ) <
            Real.sqrt
              ((distSq (stored.getD i ⟨0, 0, 0⟩) (input.getD i ⟨0, 0, 0⟩) : ℚ) : ℝ)) ∧
    (∀ (g : Gesture) (storedG inputG : GestureData),
      comparePositions g.tolerance.position storedG.positions inputG.positions = false →
      successFlag g storedG inputG = false) ∧
    comparePositions (15/100) c2Stored.positions c2Live.positions = false := by
  refine ⟨?_, ?_, by with_unfolding_all decide⟩
  · intro tolPos stored input
    rw [comparePositions_eq_false_iff]
    constructor
    · rintro ⟨i, hi, hd⟩
      exact ⟨i, hi, (distGtTol_iff_sqrt _ _ _).mp hd⟩
    · rintro ⟨i, hi, hd⟩
      exact ⟨i, hi, (distGtTol_iff_sqrt _ _ _).mpr hd⟩
  · intro g sG iG h
    simp [successFlag, h]

/-- Witness for C2: the forcing clause applied at the spec scenario
template and samples. -/
theorem C2_position_match_characterization_witness :
    successFlag c2Gesture c2Stored c2Live = false :=
  C2_position_match_characterization.2.1 c2Gesture c2Stored c2Live
    (by with_unfolding_all decide)

/-- C3: every compared timing index tests the relative difference
`|stored[i] − live[i]| / stored[i]` against `tolerance.timing`, and the
division-by-zero case behaves so that an index with both timestamps 0
passes (the `NaN` comparison produces no failure) while an index with
`stored[i] = 0` and `live[i] ≠ 0` fails the whole timing match (the
quotient is `Infinity`, above any tolerance). -/
theorem C3_compareTiming_zero_handling :
    (∀ (tolT : ℚ) (stored input : List ℚ),
      compareTiming tolT stored input = true ↔
        ∀ i < min stored.length input.length,
          timingFailsAt tolT (stored.getD i 0) (input.getD i 0) = false) ∧
    (∀ (tolT s l : ℚ), s ≠ 0 → (timingFailsAt tolT s l = true ↔ tolT < |s - l| / s)) ∧
    (∀ tolT : ℚ, timingFailsAt tolT 0 0 = false) ∧
    (∀ (tolT l : ℚ), l ≠ 0 → timingFailsAt tolT 0 l = true) ∧
    (∀ (tolT : ℚ) (stored input : List ℚ) (i : ℕ),
      i < min stored.length input.length →
      stored.getD i 0 = 0 → input.getD i 0 ≠ 0 →
      compareTiming tolT stored input = false) := by
  refine ⟨compareTiming_eq_true_iff, ?_, ?_, ?_, ?_⟩
  · intro tolT s l hs
    simp [timingFailsAt, hs]
  · intro tolT
    simp [timingFailsAt]
  · intro tolT l hl
    simp [timingFailsAt, hl]
  · intro tolT stored input i hi hs hl
    rw [compareTiming_eq_false_iff]
    refine ⟨i, hi, ?_⟩
    unfold timingFailsAt
    rw [hs]
    simpa [List.getD] using hl

/-- Witness for C3: a stored timestamp 0 against a live timestamp 5
fails the timing match. -/
theorem C3_compareTiming_zero_handling_witness :
    compareTiming (2/10) [0, 100] [(5 : ℚ), 100] = false :=
  C3_compareTiming_zero_handling.2.2.2.2 (2/10) [0, 100] [5, 100] 0
    (by with_unfolding_all decide) (by with_unfolding_all decide)
    (by with_unfolding_all decide)

/-- C5: the per-identity lockout transitions.  A failure increments
`loginAttempts` whenever no expired lock is pending; the increment that
reaches the threshold 5 (from 4, with no lock set) also sets
`lockUntil = now + 2h`; a failure arriving after an already-expired
lock resets `loginAttempts` to 1 and clears `lockUntil` instead of
incrementing; and a successful validation resets both fields and stamps
`lastLogin` with the current time. -/
theorem C5_lockout_state_machine :
    (∀ (u : UserState) (now : ℚ),
      (∀ t, u.lockUntil = some t → ¬ t < now) →
      (incLoginAttempts u now).loginAttempts = u.loginAttempts + 1) ∧
    (∀ (u : UserState) (now : ℚ),
      u.loginAttempts = 4 → u.lockUntil = none →
      incLoginAttempts u now =
        { u with loginAttempts := 5, lockUntil := some (now + 2 * 60 * 60 * 1000) }) ∧
    (∀ (u : UserState) (now t : ℚ),
      u.lockUntil = some t → t < now →
      incLoginAttempts u now = { u with loginAttempts := 1, lockUntil := none }) ∧
    (∀ (u : UserState) (now : ℚ),
      resetLoginAttempts u now =
        { loginAttempts := 0, lockUntil := none, lastLogin := some now }) := by
  refine ⟨?_, ?_, ?_, fun u now => rfl⟩
  · intro u now h
    cases hl : u.lockUntil with
    | none =>
      unfold incLoginAttempts
      rw [hl]
      dsimp only
      unfold incLoginAttemptsCore
      split <;> rfl
    | some t =>
      unfold incLoginAttempts
      rw [hl]
      dsimp only
      rw [if_neg (h t hl)]
      unfold incLoginAttemptsCore
      split <;> rfl
  · intro u now h4 hn
    have hL : isLocked u now = false := by
      unfold isLocked
      rw [hn]
    unfold incLoginAttempts
    rw [hn]
    dsimp only
    unfold incLoginAttemptsCore
    rw [h4, hL]
    simp [lockTime]
  · intro u now t ht hlt
    unfold incLoginAttempts
    rw [ht]
    dsimp only
    rw [if_pos hlt]

/-- Witness for C5: the fifth failure of a fresh account sets the
two-hour lock. -/
theorem C5_lockout_state_machine_witness :
    incLoginAttempts ⟨4, none, none⟩ 1000 =
      { loginAttempts := 5, lockUntil := some (1000 + 2 * 60 * 60 * 1000),
        lastLogin := none } :=
  C5_lockout_state_machine.2.1 ⟨4, none, none⟩ 1000 rfl rfl

/-- C6: while `lockUntil` is set and in the future, the login route
rejects every attempt as locked, for every gesture template and every
live sample, leaving the state untouched and never reaching the
`validateGesture` call; and after five failure transitions from a fresh
account the lock is `t5 + 2h`, so every attempt strictly before that
instant — whatever the gesture — is rejected as locked. -/
theorem C6_locked_rejects_all :
    (∀ (u : UserState) (g : Gesture) (input : GestureData) (now : ℚ),
      isLocked u now = true → loginRoute u g input now = (LoginResult.locked, u)) ∧
    (∀ t1 t2 t3 t4 t5 : ℚ,
      (fiveFailures t1 t2 t3 t4 t5).lockUntil = some (t5 + 2 * 60 * 60 * 1000) ∧
      ∀ (g : Gesture) (input : GestureData) (t : ℚ),
        t < t5 + 2 * 60 * 60 * 1000 →
        loginRoute (fiveFailures t1 t2 t3 t4 t5) g input t =
          (LoginResult.locked, fiveFailures t1 t2 t3 t4 t5)) := by
  have hgate : ∀ (u : UserState) (g : Gesture) (input : GestureData) (now : ℚ),
      isLocked u now = true → loginRoute u g input now = (LoginResult.locked, u) := by
    intro u g input now h
    unfold loginRoute
    rw [h]
    simp
  have hfive : ∀ t1 t2 t3 t4 t5 : ℚ,
      fiveFailures t1 t2 t3 t4 t5 = ⟨5, some (t5 + lockTime), none⟩ := by
    intro t1 t2 t3 t4 t5
    have h1 : incLoginAttempts ⟨0, none, none⟩ t1 = ⟨1, none, none⟩ := by
      simp [incLoginAttempts, incLoginAttemptsCore, isLocked]
    have h2 : incLoginAttempts ⟨1, none, none⟩ t2 = ⟨2, none, none⟩ := by
      simp [incLoginAttempts, incLoginAttemptsCore, isLocked]
    have h3 : incLoginAttempts ⟨2, none, none⟩ t3 = ⟨3, none, none⟩ := by
      simp [incLoginAttempts, incLoginAttemptsCore, isLocked]
    have h4 : incLoginAttempts ⟨3, none, none⟩ t4 = ⟨4, none, none⟩ := by
      simp [incLoginAttempts, incLoginAttemptsCore, isLocked]
    have h5 : incLoginAttempts ⟨4, none, none⟩ t5 = ⟨5, some (t5 + lockTime), none⟩ := by
      simp [incLoginAttempts, incLoginAttemptsCore, isLocked]
    unfold fiveFailures
    rw [h1, h2, h3, h4, h5]
  refine ⟨hgate, fun t1 t2 t3 t4 t5 => ?_⟩
  rw [hfive]
  refine ⟨by unfold lockTime; rfl, fun g input t ht => ?_⟩
  refine hgate _ g input t ?_
  unfold isLocked
  simpa [lockTime] using ht

/-- Witness for C6: after five failures at times 1..5, an attempt at
time 6 (well before the lock expiry 5 + 7200000) is rejected as locked
even for a template whose stored sample the live sample matches. -/
theorem C6_locked_rejects_all_witness :
    loginRoute (fiveFailures 1 2 3 4 5) sampleGesture sampleData 6 =
      (LoginResult.locked, fiveFailures 1 2 3 4 5) :=
  (C6_locked_rejects_all.2 1 2 3 4 5).2 sampleGesture sampleData 6
    (by with_unfolding_all decide)

/-- C7: the anti-spoofing gate fails open: whenever the body of
`performAntiSpoofingCheck` raises an internal exception, the
`catch (error) { return true }` of security.js line 342 makes the check
return `true`, so the attempt passes anti-spoofing despite the internal
error. -/
theorem C7_fail_open_on_exception :
    ∀ (msqrt : ℚ → ℚ) (g : SpoofGestureData) (e : String),
      antiSpoofingBody msqrt g = Except.error e →
      performAntiSpoofingCheck true msqrt g = true := by
  intro msqrt g e h
  unfold performAntiSpoofingCheck
  rw [h]
  rfl

/-- Witness for C7: a gesture payload without `motionData` makes the
body throw a `TypeError`, and the check returns `true`. -/
theorem C7_fail_open_on_exception_witness :
    performAntiSpoofingCheck true (fun x => x) ⟨none, none, some [0, 100]⟩ = true :=
  C7_fail_open_on_exception (fun x => x) ⟨none, none, some [0, 100]⟩
    "TypeError: motionData is undefined" rfl

/-- C4 counterexample: the paradigm input of the claim itself — exactly
100 ms between every frame, timestamps `[0, 100, 200]` — has inter-frame
interval variance 0 < 0.01 (intervals `[100, 100]`), yet
`analyzeTimingPatterns` does NOT flag it: the code computes its interval
list with a leading zero entry, `[0, 100, 100]`, whose variance is
20000/9 ≈ 2222, far above 0.01.  And the backend login path does not
reject the attempt either: for a fresh (unlocked) user it reaches the
`validateGesture` call (the matcher IS consulted) and surfaces that
call's outcome, `Gesture validation failed`, instead of any spoofing
rejection. -/
theorem C4_counterexample :
    varianceQ (specIntervals [0, 100, 200]) < 1/100 ∧
    analyzeTimingPatterns [0, 100, 200] =
      { suspicious := false, severity := none, reason := none } ∧
    loginRoute freshUser sampleGesture sampleData 0 =
      (LoginResult.gestureError "Gesture validation failed", freshUser) := by
  refine ⟨by with_unfolding_all decide, by with_unfolding_all decide, ?_⟩
  unfold loginRoute
  rw [show isLocked freshUser 0 = false from rfl]
  rw [validateGesture_eq_error]
  rfl

/-- C4 amended: the timing check computes its interval list with a
leading zero entry (index 0 is mapped to 0), so its variance is not the
variance of the true inter-frame intervals: a uniformly spaced sample
`[0, d, 2d]` has true interval variance 0 < 0.01, yet it is NOT flagged
whenever the computed variance `2d²/9` reaches 0.01 (that is, whenever
`d² ≥ 9/200` — for the 100 ms spacing of the spec scenario the computed
variance is ≈ 2222).  Samples whose computed variance (leading zero
included) IS strictly below 0.01 are flagged `too_perfect_timing` with
severity `high`, and for them `performAntiSpoofingCheck` (enabled,
inputs present) returns `false`.  Separately, no code in the backend
login path invokes the anti-spoofing check, so the attempt is never
rejected on that basis: for every non-locked user the route proceeds to
`validateGesture` regardless of the live sample's timing variance (and
currently surfaces `Gesture validation failed`, the C1 defect). -/
theorem C4_timing_check_divergences :
    (∀ d : ℚ, 9/200 ≤ d^2 →
      varianceQ (specIntervals [0, d, 2 * d]) = 0 ∧
      varianceQ (deltasWith (fun prev cur => cur - prev) [0, d, 2 * d]) =
        2 * d^2 / 9 ∧
      analyzeTimingPatterns [0, d, 2 * d] =
        { suspicious := false, severity := none, reason := none }) ∧
    (∀ timingData : List ℚ, timingData ≠ [] →
      varianceQ (deltasWith (fun prev cur => cur - prev) timingData) < 1/100 →
      analyzeTimingPatterns timingData =
        { suspicious := true, severity := some "high",
          reason := some "too_perfect_timing" } ∧
      ∀ (msqrt : ℚ → ℚ) (depthData : Option (List ℚ)) (motionData : List Pos),
        performAntiSpoofingCheck true msqrt
          { depthData := depthData, motionData := some motionData,
            timingData := some timingData } = false) ∧
    (∀ (u : UserState) (g : Gesture) (input : GestureData) (now : ℚ),
      isLocked u now = false →
      loginRoute u g input now =
        (LoginResult.gestureError "Gesture validation failed", u)) := by
  refine ⟨?_, ?_, ?_⟩
  · intro d hd
    have hcode : varianceQ (deltasWith (fun prev cur => cur - prev) [0, d, 2 * d]) =
        2 * d^2 / 9 := by
      simp only [deltasWith, List.zipWith_cons_cons, List.zipWith_nil_right]
      unfold varianceQ meanQ
      simp only [List.sum_cons, List.sum_nil, List.map_cons, List.map_nil,
        List.length_cons, List.length_nil]
      push_cast
      ring
    refine ⟨?_, hcode, ?_⟩
    · unfold specIntervals
      simp only [List.tail_cons, List.zipWith_cons_cons, List.zipWith_nil_right]
      unfold varianceQ meanQ
      simp only [List.sum_cons, List.sum_nil, List.map_cons, List.map_nil,
        List.length_cons, List.length_nil]
      push_cast
      ring
    · have hge : ¬ varianceQ (deltasWith (fun prev cur => cur - prev) [0, d, 2 * d])
          < 1/100 := by
        rw [hcode]
        intro hlt
        linarith
      unfold analyzeTimingPatterns
      simp only [deltasWith] at hge ⊢
      rw [if_neg hge]
  · intro timingData hne hv
    have hflag : analyzeTimingPatterns timingData =
        { suspicious := true, severity := some "high",
          reason := some "too_perfect_timing" } := by
      cases timingData with
      | nil => cases hne rfl
      | cons t ts =>
        unfold analyzeTimingPatterns
        simp only [deltasWith] at hv ⊢
        rw [if_pos hv]
    refine ⟨hflag, ?_⟩
    intro msqrt depthData motionData
    have hbody : antiSpoofingBody msqrt
        { depthData := depthData, motionData := some motionData,
          timingData := some timingData } = Except.ok false := by
      rcases depthData with _ | depthList
      · by_cases hm : (analyzeMotionPatterns msqrt motionData).suspicious = true
        · simp [antiSpoofingBody, hm]
        · simp [antiSpoofingBody, hm, hflag]
      · by_cases hdc : checkDepthConsistency depthList = false
        · simp [antiSpoofingBody, hdc]
        · by_cases hm : (analyzeMotionPatterns msqrt motionData).suspicious = true
          · simp [antiSpoofingBody, hdc, hm]
          · simp [antiSpoofingBody, hdc, hm, hflag]
    simp [performAntiSpoofingCheck, hbody]
  · intro u g input now h
    unfold loginRoute
    rw [h]
    rw [validateGesture_eq_error]
    rfl

/-- Witness for C4: the amended statement applied at spacing d = 100,
the spec scenario: true interval variance 0, computed variance
2·100²/9 = 20000/9, not flagged. -/
theorem C4_timing_check_divergences_witness :
    varianceQ (specIntervals [0, 100, 2 * 100]) = 0 ∧
    varianceQ (deltasWith (fun prev cur => cur - prev) [0, 100, 2 * 100]) =
      2 * (100 : ℚ)^2 / 9 ∧
    analyzeTimingPatterns [0, 100, 2 * 100] =
      { suspicious := false, severity := none, reason := none } :=
  C4_timing_check_divergences.1 100 (by with_unfolding_all decide)

/-- `round` on ℚ is monotone (JavaScript `Math.round` computes
`⌊x + 1/2⌋`, as Mathlib `round` does). -/
theorem roundQ_le_roundQ {x y : ℚ} (h : x ≤ y) : round x ≤ round y := by
  rw [round_eq, round_eq]
  exact Int.floor_le_floor (by linarith)

/-- Appending one position adds exactly one distance term (from the old
last position to the new one) to the consecutive-distance sum. -/
theorem totalDistance_append (msqrt : ℚ → ℚ) :
    ∀ (xs : List Pos) (p : Pos),
      totalDistance msqrt (xs ++ [p]) =
        totalDistance msqrt xs +
          (match xs.getLast? with
           | none => 0
           | some q => msqrt (distSq q p))
  | [], p => by simp [totalDistance]
  | [a], p => by simp [totalDistance]
  | a :: b :: rest, p => by
    have ih := totalDistance_append msqrt (b :: rest) p
    simp only [List.cons_append] at ih ⊢
    rw [totalDistance, totalDistance, ih, List.getLast?_cons_cons]
    ring_nf

/-- The complexity score never decreases when one position is appended
(the timing array unchanged), provided the distance function is
nonnegative, as a square root is. -/
theorem calculateComplexity_le_append (msqrt : ℚ → ℚ) (hm : ∀ x, 0 ≤ msqrt x)
    (positions : List Pos) (timing : List ℚ) (p : Pos) :
    calculateComplexity msqrt positions timing ≤
      calculateComplexity msqrt (positions ++ [p]) timing := by
  have hd : 0 ≤ (match positions.getLast? with
      | none => (0 : ℚ)
      | some q => msqrt (distSq q p)) := by
    cases positions.getLast? with
    | none => exact le_refl 0
    | some q => exact hm _
  simp only [calculateComplexity, totalDistance_append, List.length_append,
    List.length_cons, List.length_nil]
  refine min_le_min le_rfl (max_le_max le_rfl (roundQ_le_roundQ ?_))
  push_cast
  linarith

/-- C8: for every admissible sample the complexity equals
`1 + 0.5·N + 0.1·(sum of consecutive distances) + 0.01·Var(timing)`,
rounded to the nearest integer and clamped to `[1, 10]`; in particular
the result is an integer between 1 and 10 inclusive. -/
theorem C8_complexity_formula (msqrt : ℚ → ℚ) (positions : List Pos)
    (timing : List ℚ) (hlen : timing.length = positions.length)
    (h3 : 3 ≤ positions.length) (h10 : positions.length ≤ 10) :
    calculateComplexity msqrt positions timing =
      min 10 (max 1 (round ((1 : ℚ) + (1/2) * positions.length
        + (1/10) * totalDistance msqrt positions
        + (1/100) * varianceQ timing))) ∧
    1 ≤ calculateComplexity msqrt positions timing ∧
    calculateComplexity msqrt positions timing ≤ 10 := by
  refine ⟨?_, ?_, ?_⟩
  · have harg : (1 : ℚ) + (positions.length : ℚ) * (1/2)
        + totalDistance msqrt positions * (1/10) + varianceQ timing * (1/100)
        = (1 : ℚ) + (1/2) * positions.length
          + (1/10) * totalDistance msqrt positions
          + (1/100) * varianceQ timing := by ring
    simp only [calculateComplexity]
    rw [harg]
  · simp only [calculateComplexity]
    exact le_min (by norm_num) (le_max_left _ _)
  · simp only [calculateComplexity]
    exact min_le_left _ _

/-- Witness for C8: the formula and the bounds at the concrete 3-point
sample, with the trivial nonnegative square-root stand-in. -/
theorem C8_complexity_formula_witness :
    1 ≤ calculateComplexity (fun _ => 0) sampleData.positions sampleData.timing ∧
    calculateComplexity (fun _ => 0) sampleData.positions sampleData.timing ≤ 10 :=
  ⟨(C8_complexity_formula (fun _ => 0) sampleData.positions sampleData.timing
      rfl (by decide) (by decide)).2.1,
    (C8_complexity_formula (fun _ => 0) sampleData.positions sampleData.timing
      rfl (by decide) (by decide)).2.2⟩

/-- C9: appending one position with nonzero displacement (timing
unchanged) never lowers the complexity score: the pre-rounding value
grows by `0.5 + 0.1·(new distance) ≥ 0.5`, and rounding and clamping
are monotone. -/
theorem C9_complexity_monotone (msqrt : ℚ → ℚ) (hm : ∀ x, 0 ≤ msqrt x)
    (positions : List Pos) (timing : List ℚ) (p : Pos)
    (hdisp : positions.getLast? ≠ some p) :
    calculateComplexity msqrt positions timing ≤
      calculateComplexity msqrt (positions ++ [p]) timing :=
  calculateComplexity_le_append msqrt hm positions timing p

/-- Witness for C9: appending the far-away point `(9, 9, 9)` to the
3-point sample does not lower the complexity. -/
theorem C9_complexity_monotone_witness :
    calculateComplexity (fun _ => 0) sampleData.positions sampleData.timing ≤
      calculateComplexity (fun _ => 0) (sampleData.positions ++ [⟨9, 9, 9⟩])
        sampleData.timing :=
  C9_complexity_monotone (fun _ => 0) (fun _ => le_refl 0)
    sampleData.positions sampleData.timing ⟨9, 9, 9⟩
    (by with_unfolding_all decide)

/-- C10: both matching passes only look at the first
`min(stored length, live length)` indices and never require the lengths
to be equal, so a live sample strictly shorter than the stored one that
stays within tolerance on every index it does have passes both the
position match and the timing match. -/
theorem C10_truncated_prefix_passes (tolPos tolT : ℚ)
    (storedPos livePos : List Pos) (storedT liveT : List ℚ)
    (hplen : livePos.length < storedPos.length)
    (htlen : liveT.length < storedT.length)
    (hpos : ∀ i < livePos.length,
      distGtTol tolPos (storedPos.getD i ⟨0, 0, 0⟩) (livePos.getD i ⟨0, 0, 0⟩) = false)
    (htim : ∀ i < liveT.length,
      timingFailsAt tolT (storedT.getD i 0) (liveT.getD i 0) = false) :
    comparePositions tolPos storedPos livePos = true ∧
    compareTiming tolT storedT liveT = true := by
  constructor
  · rw [comparePositions_eq_true_iff]
    intro i hi
    exact hpos i (lt_of_lt_of_le hi (min_le_right _ _))
  · rw [compareTiming_eq_true_iff]
    intro i hi
    exact htim i (lt_of_lt_of_le hi (min_le_right _ _))

/-- Witness for C10: a 3-point live sample equal to the first three of
four stored points passes both matches against the 4-point template. -/
theorem C10_truncated_prefix_passes_witness :
    comparePositions (15/100)
        [⟨0, 0, 0⟩, ⟨1/10, 0, 0⟩, ⟨2/10, 0, 0⟩, ⟨3/10, 0, 0⟩]
        [⟨0, 0, 0⟩, ⟨1/10, 0, 0⟩, ⟨2/10, 0, 0⟩] = true ∧
    compareTiming (2/10) [0, 100, 200, 300] [(0 : ℚ), 100, 200] = true :=
  C10_truncated_prefix_passes (15/100) (2/10)
    [⟨0, 0, 0⟩, ⟨1/10, 0, 0⟩, ⟨2/10, 0, 0⟩, ⟨3/10, 0, 0⟩]
    [⟨0, 0, 0⟩, ⟨1/10, 0, 0⟩, ⟨2/10, 0, 0⟩]
    [0, 100, 200, 300] [0, 100, 200]
    (by decide) (by decide)
    (by
      intro i hi
      simp only [List.length_cons, List.length_nil] at hi
      interval_cases i <;> with_unfolding_all decide)
    (by
      intro i hi
      simp only [List.length_cons, List.length_nil] at hi
      interval_cases i <;> with_unfolding_all decide)

end GestureVault
